import Mathlib

/-!
Verification development for the tutorial script
`docs/gallery/tutorials/advanced_api_usage.py` of the alpa repository.

The script is a straight-line tutorial that configures and invokes the alpa
auto-parallelization framework.  We shallowly embed the values and functions
the script defines: the constants and tensors, the three Flax model classes
and their `__call__` loops (with the pipeline markers they emit), the
training-state construction and replacement, the batch dictionary and the
train-step functions that read it, the global configuration with its
backup/restore snapshots, the profiling pretty-printer, and the ordered
trace of top-level statements the script executes.  External framework
calls (jax, flax, optax, ray, alpa internals) are modelled as opaque value
constructors; numeric profiling statistics are modelled as rationals.
-/

/- ------------------------------------------------------------------ -/
/- Constants defined at the top of the script (lines 30-34).           -/
/- ------------------------------------------------------------------ -/

def batch_size : Nat := 64

def seq_len : Nat := 512

def hidden_size : Nat := 512

def num_heads : Nat := 4

def n_layers : Nat := 4

/- ------------------------------------------------------------------ -/
/- Tensors (lines 65-68).  Tensor creation is done by the external     -/
/- framework (jax.random.normal / jnp.ones); we record the provenance  -/
/- (creating primitive, key, shape) as an opaque-value constructor.    -/
/- ------------------------------------------------------------------ -/

inductive Tensor where
  | normal (key : Nat) (shape : List Nat)
  | ones (shape : List Nat)
deriving DecidableEq, Repr

/-- Embedding of `rngkey = jax.random.PRNGKey(0)` (line 65): the key seed. -/
def rngkey : Nat := 0

/-- Embedding of `x = jax.random.normal(rngkey, (batch_size, seq_len, hidden_size))` (line 66). -/
def x : Tensor := Tensor.normal rngkey [batch_size, seq_len, hidden_size]

/-- Embedding of `y = jax.random.normal(rngkey, (batch_size, seq_len, hidden_size))` (line 67). -/
def y : Tensor := Tensor.normal rngkey [batch_size, seq_len, hidden_size]

/-- Embedding of `attention_mask = jnp.ones((batch_size, seq_len), dtype=jnp.float32)` (line 68). -/
def attention_mask : Tensor := Tensor.ones [batch_size, seq_len]

/- ------------------------------------------------------------------ -/
/- BertConfig (line 70-73).  Only the fields the script passes.        -/
/- ------------------------------------------------------------------ -/

structure BertConfig where
  hidden_size : Nat
  intermediate_size : Nat
  num_attention_heads : Nat
  num_hidden_layers : Nat
deriving DecidableEq, Repr

/-- Embedding of the `bert_config = BertConfig(...)` value (lines 70-73). -/
def bert_config : BertConfig :=
  { hidden_size := hidden_size
    intermediate_size := hidden_size * 4
    num_attention_heads := num_heads
    num_hidden_layers := n_layers }

/- ------------------------------------------------------------------ -/
/- Model values.  The script instantiates three model classes; the     -/
/- class bodies only store the config (plus a `manual_pipeline_layer`  -/
/- flag on the two manual-marker classes, defaulting to True).         -/
/- ------------------------------------------------------------------ -/

inductive ModelV where
  | bertLayerModel (config : BertConfig)
  | unequalManualLayerBertLayerModel (config : BertConfig) (manual_pipeline_layer : Bool)
  | equalManualLayerBertLayerModel (config : BertConfig) (manual_pipeline_layer : Bool)
deriving DecidableEq, Repr

/- ------------------------------------------------------------------ -/
/- Values flowing through a model `__call__`.  `layerApp i xv mask`    -/
/- stands for `layer_outputs[0]` where `layer_outputs =                -/
/- self.layers[i](x, attention_mask)` (an external FlaxBertLayer).     -/
/- ------------------------------------------------------------------ -/

inductive TVal where
  | tensor (t : Tensor)
  | layerApp (i : Nat) (xv : TVal) (mask : Tensor)
deriving DecidableEq, Repr

/-- Number of bert-layer applications recorded in a value. -/
def layerAppCount : TVal → Nat
  | TVal.tensor _ => 0
  | TVal.layerApp _ xv _ => layerAppCount xv + 1

namespace BertLayerModel

/-- Embedding of `BertLayerModel.__call__` (lines 48-52): iterate the
`num_hidden_layers` bert layers over the input, no pipeline markers. -/
def call (config : BertConfig) (x0 : TVal) (mask : Tensor) : TVal :=
  (List.range config.num_hidden_layers).foldl
    (fun xv i => TVal.layerApp i xv mask) x0

end BertLayerModel

/- A pipeline marker emitted by `mark_pipeline(name=..., mark_type=...)`:
   the pair (name, mark_type), with mark_type the string 'start' or 'end'
   exactly as passed in the source. -/

namespace UnequalManualLayerBertLayerModel

/-- Embedding of `UnequalManualLayerBertLayerModel.__call__` (lines 224-234):
for each layer index `i`, emit a start marker named `str(i)` when `i < 2`,
apply the layer, and emit an end marker named `str(i)` when `i == 0` or
`i == num_hidden_layers - 1`.  Returns the final value and the ordered
list of markers emitted. -/
def call (config : BertConfig) (x0 : TVal) (mask : Tensor) :
    TVal × List (String × String) :=
  (List.range config.num_hidden_layers).foldl
    (fun acc i =>
      let ms1 := if i < 2 then acc.2 ++ [(toString i, "start")] else acc.2
      let xv := TVal.layerApp i acc.1 mask
      let ms2 := if i = 0 ∨ i = config.num_hidden_layers - 1 then
        ms1 ++ [(toString i, "end")] else ms1
      (xv, ms2))
    (x0, [])

end UnequalManualLayerBertLayerModel

namespace EqualManualLayerBertLayerModel

/-- Embedding of `EqualManualLayerBertLayerModel.__call__` (lines 293-301):
for each layer index `i`, emit a start marker named `str(i)`, apply the
layer, and emit an end marker named `str(i)`. -/
def call (config : BertConfig) (x0 : TVal) (mask : Tensor) :
    TVal × List (String × String) :=
  (List.range config.num_hidden_layers).foldl
    (fun acc i =>
      let ms1 := acc.2 ++ [(toString i, "start")]
      let xv := TVal.layerApp i acc.1 mask
      (xv, ms1 ++ [(toString i, "end")]))
    (x0, [])

end EqualManualLayerBertLayerModel

/-- Names of the start markers in an emitted marker list, in order. -/
def startNames (ms : List (String × String)) : List String :=
  (ms.filter (fun m => m.2 == "start")).map Prod.fst

/-- Names of the end markers in an emitted marker list, in order. -/
def endNames (ms : List (String × String)) : List String :=
  (ms.filter (fun m => m.2 == "end")).map Prod.fst

/- ------------------------------------------------------------------ -/
/- The manual stage-construction plan (lines 310-318) and the default  -/
/- mesh shape stated by the script comment on line 152.                -/
/- ------------------------------------------------------------------ -/

/-- Value assigned to `global_config.forward_stage_layer_ids` (line 312). -/
def forward_stage_layer_ids : List (List Nat) := [[0], [1], [2, 3]]

/-- Value assigned to `global_config.sub_physical_mesh_shapes` (line 314). -/
def sub_physical_mesh_shapes : List (Nat × Nat) := [(1, 1), (1, 1), (1, 2)]

/-- Value assigned to `global_config.sub_logical_mesh_shapes` (line 316). -/
def sub_logical_mesh_shapes : List (Nat × Nat) := [(1, 1), (1, 1), (2, 1)]

/-- Value assigned to `global_config.submesh_autosharding_option_dicts`
(line 318): three empty dicts, modelled as empty association lists. -/
def submesh_autosharding_option_dicts : List (List (String × Nat)) := [[], [], []]

/-- Number of devices of a (num_host, num_devices_per_host) mesh shape. -/
def meshDevices (s : Nat × Nat) : Nat := s.1 * s.2

/-- The default mesh shape `(num_host, num_device) = (1, 4)` stated in the
comment on line 152. -/
def defaultMeshShape : Nat × Nat := (1, 4)

/-- Claim C9: in `UnequalManualLayerBertLayerModel.__call__` with the
tutorial's `bert_config` (`num_hidden_layers = 4`), the emitted markers are
start '0', end '0', start '1', end '3' in that order; the start-marker name
set is `{0, 1}` and the end-marker name set is `{0, 3}`: start marker '1'
has no end marker of the same name, end marker '3' has no start marker of
the same name, so the two sets of names differ. -/
theorem unequal_marker_names_mismatch :
    (UnequalManualLayerBertLayerModel.call bert_config (TVal.tensor x)
      attention_mask).2 =
      [("0", "start"), ("0", "end"), ("1", "start"), ("3", "end")] ∧
    startNames ((UnequalManualLayerBertLayerModel.call bert_config
      (TVal.tensor x) attention_mask).2) = ["0", "1"] ∧
    endNames ((UnequalManualLayerBertLayerModel.call bert_config
      (TVal.tensor x) attention_mask).2) = ["0", "3"] ∧
    "1" ∈ startNames ((UnequalManualLayerBertLayerModel.call bert_config
      (TVal.tensor x) attention_mask).2) ∧
    "1" ∉ endNames ((UnequalManualLayerBertLayerModel.call bert_config
      (TVal.tensor x) attention_mask).2) ∧
    "3" ∈ endNames ((UnequalManualLayerBertLayerModel.call bert_config
      (TVal.tensor x) attention_mask).2) ∧
    "3" ∉ startNames ((UnequalManualLayerBertLayerModel.call bert_config
      (TVal.tensor x) attention_mask).2) ∧
    startNames ((UnequalManualLayerBertLayerModel.call bert_config
      (TVal.tensor x) attention_mask).2) ≠
      endNames ((UnequalManualLayerBertLayerModel.call bert_config
        (TVal.tensor x) attention_mask).2) := by
  decide

/-- Claim C10: the manual stage-construction plan is internally consistent:
`forward_stage_layer_ids` concatenates, in order, to the layer indices
`0..3` (so it is a partition into contiguous, ordered, disjoint, nonempty
groups); the three per-stage lists all have length 3, the number of stages;
each stage's logical mesh has exactly as many devices as its physical mesh;
and the physical mesh device counts sum to 4, the device count of the
default (1, 4) mesh. -/
theorem manual_stage_plan_consistent :
    forward_stage_layer_ids.flatten = List.range n_layers ∧
    forward_stage_layer_ids.all (fun g => !g.isEmpty) = true ∧
    forward_stage_layer_ids.length = 3 ∧
    sub_physical_mesh_shapes.length = 3 ∧
    sub_logical_mesh_shapes.length = 3 ∧
    submesh_autosharding_option_dicts.length = 3 ∧
    (sub_physical_mesh_shapes.zip sub_logical_mesh_shapes).all
      (fun p => meshDevices p.1 == meshDevices p.2) = true ∧
    (sub_physical_mesh_shapes.map meshDevices).sum = 1 + 1 + 2 ∧
    (sub_physical_mesh_shapes.map meshDevices).sum = meshDevices defaultMeshShape := by
  decide

/- ------------------------------------------------------------------ -/
/- Global configuration and auto-sharding options (claim C1).          -/
/-                                                                     -/
/- The classes `GlobalConfig` and `AutoShardingOption` with their      -/
/- `backup`/`restore` methods live in the alpa library, which is part  -/
/- of this repository but not included under the provided sources;     -/
/- only the tutorial's calls to them are.                              -/
/- ------------------------------------------------------------------ -/

/-- Modelled from the spec: the auto-sharding option object
(`global_config.default_autosharding_option`), "a global mutable
configuration object controlling sharding/pipelining behavior,
saved/restored via backup/restore snapshots".  The fields are the ones the
tutorial mutates. -/
structure AutoShardingOption where
  prefer_reduce_scatter : Bool
  force_batch_dim_to_mesh_dim : Option Nat
deriving DecidableEq, Repr

/-- A reference held in `global_config.devices`: unset, the physical mesh
from `cluster.get_physical_mesh()`, or the virtual mesh from
`cluster.get_virtual_physical_mesh()`. -/
inductive DevicesRef where
  | unset
  | physicalMesh
  | virtualPhysicalMesh
deriving DecidableEq, Repr

/-- Modelled from the spec: the global configuration object
(`alpa.global_config`), "a global mutable configuration object controlling
sharding/pipelining behavior, saved/restored via backup/restore snapshots".
The fields are the ones the tutorial reads or mutates. -/
structure GlobalConfig where
  strategy : String
  devices : DevicesRef
  default_autosharding_option : AutoShardingOption
  pipeline_stage_mode : String
  forward_stage_layer_ids : List (List Nat)
  sub_physical_mesh_shapes : List (Nat × Nat)
  sub_logical_mesh_shapes : List (Nat × Nat)
  submesh_autosharding_option_dicts : List (List (String × Nat))
deriving DecidableEq, Repr

/-- A mutation of the auto-sharding option object: the field assignments
the tutorial performs on `as_option` (lines 125, 130, 154, 160). -/
inductive ASMutation where
  | setPreferReduceScatter (b : Bool)
  | setForceBatchDimToMeshDim (v : Option Nat)
deriving DecidableEq, Repr

def ASMutation.apply (o : AutoShardingOption) : ASMutation → AutoShardingOption
  | ASMutation.setPreferReduceScatter b => { o with prefer_reduce_scatter := b }
  | ASMutation.setForceBatchDimToMeshDim v =>
      { o with force_batch_dim_to_mesh_dim := v }

/-- A mutation of the global configuration object: the field assignments
the tutorial performs on `global_config` (lines 27, 176, 177, 310-318),
including mutations of the aliased nested auto-sharding option. -/
inductive GCMutation where
  | setStrategy (s : String)
  | setDevices (d : DevicesRef)
  | mutateDefaultAsOption (m : ASMutation)
  | setPipelineStageMode (s : String)
  | setForwardStageLayerIds (v : List (List Nat))
  | setSubPhysicalMeshShapes (v : List (Nat × Nat))
  | setSubLogicalMeshShapes (v : List (Nat × Nat))
  | setSubmeshAutoshardingOptionDicts (v : List (List (String × Nat)))
deriving DecidableEq, Repr

def GCMutation.apply (g : GlobalConfig) : GCMutation → GlobalConfig
  | GCMutation.setStrategy s => { g with strategy := s }
  | GCMutation.setDevices d => { g with devices := d }
  | GCMutation.mutateDefaultAsOption m =>
      { g with default_autosharding_option :=
          ASMutation.apply g.default_autosharding_option m }
  | GCMutation.setPipelineStageMode s => { g with pipeline_stage_mode := s }
  | GCMutation.setForwardStageLayerIds v => { g with forward_stage_layer_ids := v }
  | GCMutation.setSubPhysicalMeshShapes v => { g with sub_physical_mesh_shapes := v }
  | GCMutation.setSubLogicalMeshShapes v => { g with sub_logical_mesh_shapes := v }
  | GCMutation.setSubmeshAutoshardingOptionDicts v =>
      { g with submesh_autosharding_option_dicts := v }

/-- Modelled from the spec: `AutoShardingOption.backup()` takes a snapshot
of the whole option object (a restorable, opaque copy of all fields). -/
def AutoShardingOption.backup (o : AutoShardingOption) : AutoShardingOption := o

/-- Modelled from the spec: `AutoShardingOption.restore(snapshot)` restores
every field of the option object from the snapshot. -/
def AutoShardingOption.restore (_o snapshot : AutoShardingOption) :
    AutoShardingOption :=
  { prefer_reduce_scatter := snapshot.prefer_reduce_scatter
    force_batch_dim_to_mesh_dim := snapshot.force_batch_dim_to_mesh_dim }

/-- Modelled from the spec: `global_config.backup()` takes a snapshot of
the whole configuration object (a restorable, opaque copy of all fields). -/
def GlobalConfig.backup (g : GlobalConfig) : GlobalConfig := g

/-- Modelled from the spec: `global_config.restore(snapshot)` restores
every field of the configuration object from the snapshot. -/
def GlobalConfig.restore (_g snapshot : GlobalConfig) : GlobalConfig :=
  { strategy := snapshot.strategy
    devices := snapshot.devices
    default_autosharding_option := snapshot.default_autosharding_option
    pipeline_stage_mode := snapshot.pipeline_stage_mode
    forward_stage_layer_ids := snapshot.forward_stage_layer_ids
    sub_physical_mesh_shapes := snapshot.sub_physical_mesh_shapes
    sub_logical_mesh_shapes := snapshot.sub_logical_mesh_shapes
    submesh_autosharding_option_dicts := snapshot.submesh_autosharding_option_dicts }

/-- The mutations the tutorial performs on `as_option` between the backup
on line 123 and the first restore on line 135. -/
def scriptAsOptionMutations1 : List ASMutation :=
  [ASMutation.setPreferReduceScatter true,
   ASMutation.setPreferReduceScatter false]

/-- The mutations the tutorial performs on `as_option` between the restore
on line 135 and the second restore (still against the line-123 snapshot)
on line 166. -/
def scriptAsOptionMutations2 : List ASMutation :=
  [ASMutation.setForceBatchDimToMeshDim (some 0),
   ASMutation.setForceBatchDimToMeshDim (some 1)]

/-- The mutations the tutorial performs on `global_config` between the
backup on line 307 and the restore on line 323. -/
def scriptGlobalConfigMutations : List GCMutation :=
  [GCMutation.setPipelineStageMode "manual_gpipe",
   GCMutation.setForwardStageLayerIds forward_stage_layer_ids,
   GCMutation.setSubPhysicalMeshShapes sub_physical_mesh_shapes,
   GCMutation.setSubLogicalMeshShapes sub_logical_mesh_shapes,
   GCMutation.setSubmeshAutoshardingOptionDicts submesh_autosharding_option_dicts]

/-- Claim C1: backup/restore of the configuration objects is a round-trip:
for every auto-sharding option value and every sequence of option mutations
applied after taking a snapshot with `backup()`, calling `restore` with
that snapshot yields the option value at snapshot time; likewise for the
global configuration object and its mutations.  In particular the concrete
mutation sequences the tutorial performs (prefer_reduce_scatter,
force_batch_dim_to_mesh_dim, pipeline_stage_mode, forward_stage_layer_ids,
sub_physical_mesh_shapes, sub_logical_mesh_shapes and
submesh_autosharding_option_dicts) are all undone. -/
theorem config_backup_restore_roundtrip :
    (∀ (o : AutoShardingOption) (ms : List ASMutation),
      AutoShardingOption.restore (ms.foldl ASMutation.apply o)
        (AutoShardingOption.backup o) = o) ∧
    (∀ (g : GlobalConfig) (ms : List GCMutation),
      GlobalConfig.restore (ms.foldl GCMutation.apply g)
        (GlobalConfig.backup g) = g) ∧
    (∀ o : AutoShardingOption,
      AutoShardingOption.restore
        (scriptAsOptionMutations1.foldl ASMutation.apply o)
        (AutoShardingOption.backup o) = o) ∧
    (∀ o : AutoShardingOption,
      AutoShardingOption.restore
        (scriptAsOptionMutations2.foldl ASMutation.apply o)
        (AutoShardingOption.backup o) = o) ∧
    (∀ g : GlobalConfig,
      GlobalConfig.restore
        (scriptGlobalConfigMutations.foldl GCMutation.apply g)
        (GlobalConfig.backup g) = g) :=
  ⟨fun _ _ => rfl, fun _ _ => rfl, fun _ => rfl, fun _ => rfl, fun _ => rfl⟩

/- ------------------------------------------------------------------ -/
/- Training state (claims C2, C3).                                     -/
/-                                                                     -/
/- `TrainState` comes from `alpa.model.model_util`, repository code     -/
/- that is not included under the provided sources.  Parameters and    -/
/- optimizer states are opaque external values; we record their        -/
/- provenance: fresh initialization versus a gradient update.          -/
/- ------------------------------------------------------------------ -/

/-- The gradient transformation producing the gradients applied to a
train state: which decorators wrap the loss function in the source. -/
inductive GradKind where
  | jaxGrad
  | alpaGrad
  | manualConstruction (lift_markers : Bool) (remat_layer : Bool)
  | autoConstruction (rematSplit : Option Nat) (layer_num : Nat)
deriving DecidableEq, Repr

/-- Model parameters: either freshly initialized by `model.init(rngkey,
*inputs)` or the result of applying gradients (of the recorded kind,
computed from the recorded batch reads) to previous parameters. -/
inductive Params where
  | init (key : Nat) (m : ModelV) (inputs : List Tensor)
  | applied (prev : Params) (kind : GradKind)
      (reads : List (String × Option Tensor))
deriving DecidableEq, Repr

/-- Optimizer state: either the Adam state freshly created by
`optax.adam(learning_rate=1e-2)` and `tx.init(params)`, or the state after
an optimizer update. -/
inductive OptState where
  | adamInit (learning_rate : ℚ) (p : Params)
  | updated (prev : OptState) (kind : GradKind)
      (reads : List (String × Option Tensor))
deriving DecidableEq, Repr

/-- Modelled from the spec: the training-state container of
`alpa.model.model_util.TrainState` ("a training-state container
(parameters + optimizer state, constructed and replaced wholesale on each
reset)"): step counter, apply function (the model), parameters, optimizer
state, and the dynamic scale the tutorial always passes as None. -/
structure TrainState where
  step : Nat
  apply_fn : ModelV
  params : Params
  optState : OptState
  dynamic_scale : Option Unit
deriving DecidableEq, Repr

/-- Modelled from the spec: `TrainState.apply_gradients(grads=...)`
produces a new state with incremented step, parameters updated by the
gradients, and an updated optimizer state. -/
def TrainState.apply_gradients (s : TrainState) (kind : GradKind)
    (reads : List (String × Option Tensor)) : TrainState :=
  { step := s.step + 1
    apply_fn := s.apply_fn
    params := Params.applied s.params kind reads
    optState := OptState.updated s.optState kind reads
    dynamic_scale := s.dynamic_scale }

/-- Embedding of `create_train_state(rngkey, model, inputs)` (lines 55-62):
initialize parameters with `model.init`, create an Adam optimizer with
learning rate 1e-2, and build the TrainState with step 0, `apply_fn =
model.apply`, the fresh parameters, the fresh Adam state, and
`dynamic_scale = None`. -/
def create_train_state (key : Nat) (model : ModelV) (inputs : List Tensor) :
    TrainState :=
  let params := Params.init key model inputs
  { step := 0
    apply_fn := model
    params := params
    optState := OptState.adamInit (1 / 100) params
    dynamic_scale := none }

/- ------------------------------------------------------------------ -/
/- The mutable globals the script reassigns: `model` and `state`.      -/
/- (`rngkey`, `x`, `y`, `attention_mask`, `batch` are never            -/
/- reassigned after their creation on lines 65-69.)                    -/
/- ------------------------------------------------------------------ -/

structure ProgState where
  model : ModelV
  state : TrainState
deriving DecidableEq, Repr

/-- Embedding of `reset_state()` (lines 100-102): rebind the global
`state` to `create_train_state(rngkey, model, [x, attention_mask])`,
using the current global `model`. -/
def reset_state (σ : ProgState) : ProgState :=
  { σ with state := create_train_state rngkey σ.model [x, attention_mask] }

/-- Claim C2: every `reset_state()` call replaces the training-state
container wholesale: afterwards the global `state` is exactly the value of
`create_train_state(rngkey, model, [x, attention_mask])` — a fresh
TrainState with step 0, newly initialized parameters and a fresh Adam
optimizer state — the global `model` is untouched, and the new state does
not depend on any field of the previous state (two program states with the
same model but arbitrary previous states reset to the same state). -/
theorem reset_state_replaces_state_wholesale :
    (∀ σ : ProgState,
      (reset_state σ).state =
        create_train_state rngkey σ.model [x, attention_mask]) ∧
    (∀ σ : ProgState, (reset_state σ).model = σ.model) ∧
    (∀ σ : ProgState,
      (reset_state σ).state.step = 0 ∧
      (reset_state σ).state.params = Params.init rngkey σ.model [x, attention_mask] ∧
      (reset_state σ).state.optState =
        OptState.adamInit (1 / 100) (Params.init rngkey σ.model [x, attention_mask]) ∧
      (reset_state σ).state.dynamic_scale = none) ∧
    (∀ (m : ModelV) (s₁ s₂ : TrainState),
      (reset_state ⟨m, s₁⟩).state = (reset_state ⟨m, s₂⟩).state) :=
  ⟨fun _ => rfl, fun _ => rfl, fun _ => ⟨rfl, rfl, rfl, rfl⟩, fun _ _ _ => rfl⟩

/- ------------------------------------------------------------------ -/
/- The batch dictionary (line 69) and the train-step functions that    -/
/- read it (claim C3).  Python dicts are passed by reference and could -/
/- be mutated by a callee; the embedding threads the dictionary        -/
/- explicitly through each function defined in the file, so the second -/
/- component of each result is the dictionary as the caller sees it    -/
/- after the call.                                                     -/
/- ------------------------------------------------------------------ -/

/-- The batch mapping of named tensors: an association list standing for
the Python dict. -/
abbrev Batch : Type := List (String × Tensor)

/-- Dictionary lookup `batch[key]` (a missing key would raise KeyError,
modelled as `none`). -/
def batchGet : Batch → String → Option Tensor
  | [], _ => none
  | (k, v) :: rest, key => if k = key then some v else batchGet rest key

/-- Embedding of `batch = {'x': x, 'y': y, "attention_mask":
attention_mask}` (line 69). -/
def batch : Batch := [("x", x), ("y", y), ("attention_mask", attention_mask)]

/-- Embedding of the first `train_step` (lines 78-87): the loss reads
`batch["x"]`, `batch["attention_mask"]` and `batch["y"]`, the gradient is
taken with `jax.grad`, and the state is updated with `apply_gradients`.
The batch dictionary is only read, never written, so it is returned
unchanged. -/
def train_step (state : TrainState) (b : Batch) : TrainState × Batch :=
  let reads := [("x", batchGet b "x"),
                ("attention_mask", batchGet b "attention_mask"),
                ("y", batchGet b "y")]
  (state.apply_gradients GradKind.jaxGrad reads, b)

/-- Embedding of the second `train_step` (lines 180-190, pipeshard phase):
the loss reads only `batch["x"]` and `batch["y"]` and the gradient is taken
with `alpa.grad`. -/
def train_step2 (state : TrainState) (b : Batch) : TrainState × Batch :=
  let reads := [("x", batchGet b "x"), ("y", batchGet b "y")]
  (state.apply_gradients GradKind.alpaGrad reads, b)

/-- Embedding of the third `train_step` (lines 237-247): the loss is
decorated with `manual_layer_construction(lift_markers=True)` (remat_layer
defaults to False), reads `batch["x"]`, `batch["attention_mask"]`,
`batch["y"]`, and the gradient is taken with `alpa.grad`. -/
def train_step3 (state : TrainState) (b : Batch) : TrainState × Batch :=
  let reads := [("x", batchGet b "x"),
                ("attention_mask", batchGet b "attention_mask"),
                ("y", batchGet b "y")]
  (state.apply_gradients (GradKind.manualConstruction true false) reads, b)

/-- Embedding of the first `get_train_step(remat_layer)` (lines 335-351):
the returned train step decorates the loss with
`manual_layer_construction(lift_markers=True, remat_layer=remat_layer)`. -/
def get_train_step (remat_layer : Bool) (state : TrainState) (b : Batch) :
    TrainState × Batch :=
  let reads := [("x", batchGet b "x"),
                ("attention_mask", batchGet b "attention_mask"),
                ("y", batchGet b "y")]
  (state.apply_gradients (GradKind.manualConstruction true remat_layer) reads, b)

/-- Embedding of the second `get_train_step(remat_layer)` (lines 376-394):
the loss is wrapped with `automatic_remat(layer_num=4)` when remat_layer is
set, then with `automatic_layer_construction(layer_num=2)`. -/
def get_train_step2 (remat_layer : Bool) (state : TrainState) (b : Batch) :
    TrainState × Batch :=
  let reads := [("x", batchGet b "x"),
                ("attention_mask", batchGet b "attention_mask"),
                ("y", batchGet b "y")]
  (state.apply_gradients
    (GradKind.autoConstruction (if remat_layer then some 4 else none) 2) reads, b)

/-- Claim C3: the batch mapping built once on line 69 has exactly the keys
'x', 'y' and 'attention_mask' bound to the tensors created at
initialization, and every train-step function defined in the file passes
the batch dictionary through unchanged: each returns the very dictionary it
received, for every state and every dictionary. -/
theorem batch_passed_through_unchanged :
    batch = [("x", x), ("y", y), ("attention_mask", attention_mask)] ∧
    batchGet batch "x" = some x ∧
    batchGet batch "y" = some y ∧
    batchGet batch "attention_mask" = some attention_mask ∧
    (∀ (st : TrainState) (b : Batch), (train_step st b).2 = b) ∧
    (∀ (st : TrainState) (b : Batch), (train_step2 st b).2 = b) ∧
    (∀ (st : TrainState) (b : Batch), (train_step3 st b).2 = b) ∧
    (∀ (r : Bool) (st : TrainState) (b : Batch),
      (get_train_step r st b).2 = b) ∧
    (∀ (r : Bool) (st : TrainState) (b : Batch),
      (get_train_step2 r st b).2 = b) :=
  ⟨rfl, rfl, rfl, rfl, fun _ _ => rfl, fun _ _ => rfl, fun _ _ => rfl,
   fun _ _ _ => rfl, fun _ _ _ => rfl⟩

/- ------------------------------------------------------------------ -/
/- Profiling pretty-printer (claim C4).                                -/
/-                                                                     -/
/- `executable.profile_all_executables()` is an external framework     -/
/- call; its result — a sequence of per-mesh mappings from stage keys  -/
/- to (time, memory) statistics — is the input of the embedding, with  -/
/- the float statistics modelled as rationals.  Python's fixed-point   -/
/- float formatting `f"{v:.3f}"` is modelled as decimal fixed-point    -/
/- formatting with round-half-to-even.                                 -/
/- ------------------------------------------------------------------ -/

/-- The decimal digit character for a digit d < 10 ('0' has code 48). -/
def digitChar (d : Nat) : Char := Char.ofNat (48 + d)

/-- The `prec` decimal digits of `m` (most significant first), as used for
the fractional part of fixed-point formatting; `m < 10 ^ prec`. -/
def fracDigits (m prec : Nat) : List Char :=
  (List.range prec).map (fun i => digitChar (m / 10 ^ (prec - 1 - i) % 10))

/-- Round a rational to the nearest integer, ties to even. -/
def roundHalfEven (q : ℚ) : Int :=
  let f := Int.floor q
  let r := q - (f : ℚ)
  if r < 1 / 2 then f
  else if 1 / 2 < r then f + 1
  else if f % 2 = 0 then f else f + 1

/-- Fixed-point decimal formatting of a rational with `prec` digits after
the decimal point (the model of Python's `f"{v:.precf}"`). -/
def fmtFixed (q : ℚ) (prec : Nat) : String :=
  let n : Int := roundHalfEven (q * (10 : ℚ) ^ prec)
  let m : Nat := n.natAbs
  String.mk ((if n < 0 then ['-'] else []) ++ (toString (m / 10 ^ prec)).data
    ++ '.' :: fracDigits (m % 10 ^ prec) prec)

/-- Number of characters after the last '.' of a string (the whole string
if it has no '.'). -/
def decimalsAfterLastDot (s : String) : Nat :=
  (s.data.reverse.takeWhile (fun c => c != '.')).length

/-- The fragment appended to the output line for one stage statistic
(line 199 of the source): `f"({stat[0]:.3f}s,{stat[1]:.2f}GB),"`. -/
def statPair (stat : ℚ × ℚ) : String :=
  "(" ++ fmtFixed stat.1 3 ++ "s," ++ fmtFixed stat.2 2 ++ "GB),"

/-- One per-mesh statistics mapping: stage keys to (time, memory). -/
abbrev MeshStats : Type := List (String × (ℚ × ℚ))

/-- The line printed for mesh `mesh_idx` (lines 197-200): `"mesh
{mesh_idx}:"` followed by one stat-pair fragment per entry of the mesh's
mapping, in order (`for stat in mesh_stats.values()`). -/
def meshLine (mesh_idx : Nat) (mesh_stats : MeshStats) : String :=
  "mesh " ++ toString mesh_idx ++ ":"
    ++ String.join ((mesh_stats.map Prod.snd).map statPair)

/-- The mesh lines of the loop `for mesh_idx, mesh_stats in
enumerate(pipeshard_stats)` (line 196), starting at index `idx`. -/
def meshLines (idx : Nat) : List MeshStats → List String
  | [] => []
  | ms :: rest => meshLine idx ms :: meshLines (idx + 1) rest

/-- Embedding of `profile_and_pp_pipeshard_stats` (lines 193-200): the
printed lines, as a list — the header line, then one line per mesh of the
profiling result. -/
def profile_and_pp_pipeshard_stats (pipeshard_stats : List MeshStats) :
    List String :=
  "All stages\x27 stats in form of (time, memory)" :: meshLines 0 pipeshard_stats

theorem meshLines_length (idx : Nat) (l : List MeshStats) :
    (meshLines idx l).length = l.length := by
  induction l generalizing idx with
  | nil => rfl
  | cons ms rest ih => simp [meshLines, ih]

theorem meshLines_get? (l : List MeshStats) (idx i : Nat) :
    (meshLines idx l).get? i = (l.get? i).map (fun ms => meshLine (idx + i) ms) := by
  induction l generalizing idx i with
  | nil => simp [meshLines]
  | cons ms rest ih =>
    cases i with
    | zero => simp [meshLines]
    | succ j =>
      have h := ih (idx + 1) j
      have harith : idx + 1 + j = idx + (j + 1) := by omega
      rw [harith] at h
      simpa [meshLines] using h

theorem takeWhile_append_all {p : Char → Bool} :
    ∀ (l₁ l₂ : List Char) (c : Char), (∀ a ∈ l₁, p a = true) → p c = false →
      List.takeWhile p (l₁ ++ c :: l₂) = l₁ := by
  intro l₁ l₂ c hall hc
  induction l₁ with
  | nil => simp [List.takeWhile_cons, hc]
  | cons a rest ih =>
    have ha : p a = true := hall a (List.mem_cons_self a rest)
    have ih2 := ih (fun b hb => hall b (List.mem_cons_of_mem a hb))
    simp [List.takeWhile_cons, ha, ih2]

theorem fracDigits_ne_dot (m prec : Nat) :
    ∀ c ∈ fracDigits m prec, (c != '.') = true := by
  intro c hc
  simp only [fracDigits, List.mem_map, List.mem_range] at hc
  obtain ⟨i, _, rfl⟩ := hc
  have h10 : m / 10 ^ (prec - 1 - i) % 10 < 10 := Nat.mod_lt _ (by norm_num)
  revert h10
  generalize m / 10 ^ (prec - 1 - i) % 10 = d
  intro hd
  interval_cases d <;> decide

theorem fracDigits_length (m prec : Nat) :
    (fracDigits m prec).length = prec := by
  simp [fracDigits]

/-- Number of characters after the last dot, for a character list with a
dot separating a prefix from a dot-free fractional part. -/
theorem decimalsAfterLastDot_concat (pre frac : List Char)
    (h : ∀ c ∈ frac, (c != '.') = true) :
    decimalsAfterLastDot (String.mk (pre ++ '.' :: frac)) = frac.length := by
  show ((pre ++ '.' :: frac).reverse.takeWhile (fun c => c != '.')).length
    = frac.length
  rw [List.reverse_append, List.reverse_cons, List.append_assoc,
    List.singleton_append]
  rw [takeWhile_append_all frac.reverse pre.reverse '.'
    (fun c hc => h c (List.mem_reverse.mp hc)) (by decide)]
  exact List.length_reverse frac

/-- Fixed-point formatting puts exactly `prec` characters (all decimal
digits) after the decimal point. -/
theorem decimalsAfterLastDot_fmtFixed (q : ℚ) (prec : Nat) :
    decimalsAfterLastDot (fmtFixed q prec) = prec := by
  have h := decimalsAfterLastDot_concat
    ((if roundHalfEven (q * (10 : ℚ) ^ prec) < 0 then ['-'] else [])
      ++ (toString ((roundHalfEven (q * (10 : ℚ) ^ prec)).natAbs / 10 ^ prec)).data)
    (fracDigits ((roundHalfEven (q * (10 : ℚ) ^ prec)).natAbs % 10 ^ prec) prec)
    (fracDigits_ne_dot _ _)
  rw [fracDigits_length] at h
  have heq : fmtFixed q prec
      = String.mk (((if roundHalfEven (q * (10 : ℚ) ^ prec) < 0 then ['-'] else [])
        ++ (toString ((roundHalfEven (q * (10 : ℚ) ^ prec)).natAbs / 10 ^ prec)).data)
        ++ '.' :: fracDigits ((roundHalfEven (q * (10 : ℚ) ^ prec)).natAbs % 10 ^ prec) prec) := by
    simp [fmtFixed, List.append_assoc]
  rw [heq]
  exact h

/-- Claim C4: `profile_and_pp_pipeshard_stats` reports per-mesh, per-stage
statistics in full: for every profiling result (a sequence of per-mesh
stage-statistics mappings) it prints the header plus exactly one line per
mesh; the line for position `i` of the sequence is `"mesh i:"` followed by
one `(time, memory)` fragment per stage entry of that mesh's mapping (one
fragment per entry, in order), each fragment formatting the time with
exactly three digits after the decimal point followed by `s` and the
memory with exactly two digits after the decimal point followed by `GB`. -/
theorem profile_stats_output_shape (pipeshard_stats : List MeshStats) :
    (profile_and_pp_pipeshard_stats pipeshard_stats).length
      = pipeshard_stats.length + 1 ∧
    (∀ i : Nat, (meshLines 0 pipeshard_stats).get? i
      = (pipeshard_stats.get? i).map (fun ms => meshLine i ms)) ∧
    (∀ ms : MeshStats, ((ms.map Prod.snd).map statPair).length = ms.length) ∧
    (∀ stat : ℚ × ℚ, statPair stat
      = "(" ++ fmtFixed stat.1 3 ++ "s," ++ fmtFixed stat.2 2 ++ "GB),") ∧
    (∀ t : ℚ, decimalsAfterLastDot (fmtFixed t 3) = 3) ∧
    (∀ m : ℚ, decimalsAfterLastDot (fmtFixed m 2) = 2) := by
  refine ⟨?_, ?_, ?_, ?_, ?_, ?_⟩
  · simp [profile_and_pp_pipeshard_stats, meshLines_length]
  · intro i
    simpa using meshLines_get? pipeshard_stats 0 i
  · intro ms; simp
  · intro stat; rfl
  · intro t; exact decimalsAfterLastDot_fmtFixed t 3
  · intro m; exact decimalsAfterLastDot_fmtFixed m 2

/- ------------------------------------------------------------------ -/
/- The HLO communication statistics printer (lines 91-97): it unpacks  -/
/- the counts returned by the external `count_communication_primitives`-/
/- and prints a single line; it contains no loop.                      -/
/- ------------------------------------------------------------------ -/

/-- Embedding of `print_hlo_communication_stats(hlo_text)` (lines 91-97):
the counts computed by the external `count_communication_primitives` are
the input; the output is the single printed line. -/
def print_hlo_communication_stats
    (counts : Nat × Nat × Nat × Nat × Nat) : List String :=
  ["#total: " ++ toString counts.1 ++ ", #all-reduce: " ++ toString counts.2.1
    ++ ", #all-gather: " ++ toString counts.2.2.1
    ++ ", #reduce-scatter: " ++ toString counts.2.2.2.1
    ++ ", #all-to-all: " ++ toString counts.2.2.2.2]

/- ------------------------------------------------------------------ -/
/- The ordered trace of the top-level statements the script executes   -/
/- (claims C5-C8).  One event per effectful top-level statement, in    -/
/- source order; pure `def`/`class` statements (which only bind names) -/
/- are not events.                                                     -/
/- ------------------------------------------------------------------ -/

/-- The model classes the script instantiates at top level. -/
inductive ModelKind where
  | bertLayer
  | unequalManual
  | equalManual
deriving DecidableEq, Repr

/-- One effectful top-level statement of the script. -/
inductive Ev where
  | rayInit                      -- ray.init()
  | acquireCluster               -- cluster = DeviceCluster()
  | setDevicesPhysical           -- global_config.devices = cluster.get_physical_mesh()
  | bindData                     -- lines 65-75: rngkey, x, y, attention_mask, batch, bert_config, model, state
  | backupAsOption               -- as_option_backup = as_option.backup()
  | setPreferReduceScatter (b : Bool)
  | getExecutable                -- executable = parallelize(train_step).get_executable(state, batch)
  | printCommStats               -- print_hlo_communication_stats(executable.get_hlo_text())
  | bindState                    -- state = create_train_state(rngkey, model, [x, attention_mask])
  | restoreAsOption              -- as_option.restore(as_option_backup)
  | setForceBatchDim (d : Nat)   -- as_option.force_batch_dim_to_mesh_dim = d
  | resetState                   -- reset_state()
  | shutdownDevices              -- global_config.devices.shutdown()
  | setStrategyPipeshard         -- global_config.strategy = "pipeshard_parallel"
  | setDevicesVirtual            -- global_config.devices = cluster.get_virtual_physical_mesh()
  | bindModel (k : ModelKind)    -- model = <ModelClass>(config=bert_config)
  | profilePipeshardStats        -- profile_and_pp_pipeshard_stats(executable)
  | shutdownExecutable           -- executable.shutdown()
  | backupGlobalConfig           -- global_config_backup = global_config.backup()
  | setPipelineStageMode         -- global_config.pipeline_stage_mode = "manual_gpipe"
  | setForwardStageLayerIds      -- global_config.forward_stage_layer_ids = [[0], [1], [2, 3]]
  | setSubPhysicalMeshShapes     -- global_config.sub_physical_mesh_shapes = [(1, 1), (1, 1), (1, 2)]
  | setSubLogicalMeshShapes      -- global_config.sub_logical_mesh_shapes = [(1, 1), (1, 1), (2, 1)]
  | setSubmeshAsDicts            -- global_config.submesh_autosharding_option_dicts = [{}, {}, {}]
  | restoreGlobalConfig          -- global_config.restore(global_config_backup)
  | printMsg                     -- print(">>>>> ...")
deriving DecidableEq, Repr

/-- The ordered list of effectful top-level statements of the script,
one event per statement, annotated with the source line. -/
def scriptTrace : List Ev := [
  Ev.rayInit,                        -- 25
  Ev.acquireCluster,                 -- 26
  Ev.setDevicesPhysical,             -- 27
  Ev.bindData,                       -- 65-75
  Ev.backupAsOption,                 -- 122-123
  Ev.setPreferReduceScatter true,    -- 125
  Ev.getExecutable,                  -- 126
  Ev.printCommStats,                 -- 127
  Ev.setPreferReduceScatter false,   -- 130
  Ev.bindState,                      -- 131
  Ev.getExecutable,                  -- 132
  Ev.printCommStats,                 -- 133
  Ev.restoreAsOption,                -- 135
  Ev.setForceBatchDim 0,             -- 154
  Ev.resetState,                     -- 155
  Ev.getExecutable,                  -- 156
  Ev.printCommStats,                 -- 157
  Ev.setForceBatchDim 1,             -- 160
  Ev.resetState,                     -- 161
  Ev.getExecutable,                  -- 162
  Ev.printCommStats,                 -- 163
  Ev.restoreAsOption,                -- 166
  Ev.shutdownDevices,                -- 175
  Ev.setStrategyPipeshard,           -- 176
  Ev.setDevicesVirtual,              -- 177
  Ev.bindModel ModelKind.unequalManual, -- 250
  Ev.bindState,                      -- 251
  Ev.getExecutable,                  -- 253
  Ev.profilePipeshardStats,          -- 254
  Ev.shutdownExecutable,             -- 256
  Ev.bindModel ModelKind.equalManual,   -- 304
  Ev.bindState,                      -- 305
  Ev.backupGlobalConfig,             -- 307
  Ev.setPipelineStageMode,           -- 310
  Ev.setForwardStageLayerIds,        -- 312
  Ev.setSubPhysicalMeshShapes,       -- 314
  Ev.setSubLogicalMeshShapes,        -- 316
  Ev.setSubmeshAsDicts,              -- 318
  Ev.getExecutable,                  -- 319
  Ev.profilePipeshardStats,          -- 320
  Ev.shutdownExecutable,             -- 322
  Ev.restoreGlobalConfig,            -- 323
  Ev.bindModel ModelKind.equalManual,   -- 331
  Ev.bindState,                      -- 332
  Ev.printMsg,                       -- 354
  Ev.getExecutable,                  -- 355
  Ev.profilePipeshardStats,          -- 356
  Ev.shutdownExecutable,             -- 357
  Ev.resetState,                     -- 358
  Ev.printMsg,                       -- 359
  Ev.getExecutable,                  -- 360
  Ev.profilePipeshardStats,          -- 361
  Ev.shutdownExecutable,             -- 362
  Ev.bindModel ModelKind.bertLayer,  -- 373
  Ev.printMsg,                       -- 397
  Ev.bindState,                      -- 398
  Ev.getExecutable,                  -- 399
  Ev.profilePipeshardStats,          -- 400
  Ev.shutdownExecutable,             -- 401
  Ev.resetState,                     -- 402
  Ev.printMsg,                       -- 403
  Ev.getExecutable,                  -- 404
  Ev.profilePipeshardStats,          -- 405
  Ev.shutdownExecutable              -- 406
]

def isAcquireCluster : Ev → Bool
  | Ev.acquireCluster => true
  | _ => false

def isSetDevicesPhysical : Ev → Bool
  | Ev.setDevicesPhysical => true
  | _ => false

def isShutdownDevices : Ev → Bool
  | Ev.shutdownDevices => true
  | _ => false

def isSetDevicesVirtual : Ev → Bool
  | Ev.setDevicesVirtual => true
  | _ => false

def isGetExecutable : Ev → Bool
  | Ev.getExecutable => true
  | _ => false

/-- Statements that use the mesh currently held in `global_config.devices`:
the compilations (which place computation on the current devices) and the
shutdown call itself. -/
def usesGlobalDevices : Ev → Bool
  | Ev.getExecutable => true
  | Ev.shutdownDevices => true
  | _ => false

/-- Index of the first event satisfying `p` (the length if none does). -/
def firstIdx (p : Ev → Bool) : List Ev → Nat
  | [] => 0
  | e :: rest => if p e then 0 else firstIdx p rest + 1

/-- What `global_config.devices` holds over the course of the trace. -/
inductive DevState where
  | unset
  | physical
  | physicalShut
  | virtual
deriving DecidableEq, Repr

def devStateStep (s : DevState) : Ev → DevState
  | Ev.setDevicesPhysical => DevState.physical
  | Ev.shutdownDevices => DevState.physicalShut
  | Ev.setDevicesVirtual => DevState.virtual
  | _ => s

/-- The devices reference in force just before executing event `j`. -/
def devStateAt (l : List Ev) (j : Nat) : DevState :=
  (l.take j).foldl devStateStep DevState.unset

/-- Whether `global_config.strategy` is "pipeshard_parallel" just before
executing event `j`.  The only statements affecting the strategy are the
assignment on line 176 and the restore on line 323, whose snapshot (taken
on line 307) already has the pipeshard strategy, so the strategy is
pipeshard exactly after the line-176 assignment. -/
def strategyPipeshardAt (l : List Ev) (j : Nat) : Bool :=
  (l.take j).any (fun e => e == Ev.setStrategyPipeshard)

/-- Claim C5: the device cluster is acquired exactly once; the physical
mesh is assigned to `global_config.devices` first (before the shutdown);
every statement using `global_config.devices` at or before the shutdown
uses the physical mesh and none after the shutdown does (after it, the
devices in use are the virtual mesh); the virtual mesh is assigned only
after the shutdown; and every compilation performed under the
pipeshard_parallel strategy happens after that assignment. -/
theorem device_mesh_usage_order :
    (scriptTrace.filter isAcquireCluster).length = 1 ∧
    (scriptTrace.filter isSetDevicesPhysical).length = 1 ∧
    (scriptTrace.filter isShutdownDevices).length = 1 ∧
    (scriptTrace.filter isSetDevicesVirtual).length = 1 ∧
    firstIdx isSetDevicesPhysical scriptTrace
      < firstIdx isShutdownDevices scriptTrace ∧
    firstIdx isShutdownDevices scriptTrace
      < firstIdx isSetDevicesVirtual scriptTrace ∧
    (∀ j, j < scriptTrace.length →
      usesGlobalDevices (scriptTrace.getD j Ev.printMsg) = true →
      j ≤ firstIdx isShutdownDevices scriptTrace →
      devStateAt scriptTrace j = DevState.physical) ∧
    (∀ j, j < scriptTrace.length →
      usesGlobalDevices (scriptTrace.getD j Ev.printMsg) = true →
      firstIdx isShutdownDevices scriptTrace < j →
      devStateAt scriptTrace j = DevState.virtual) ∧
    (∀ j, j < scriptTrace.length →
      isGetExecutable (scriptTrace.getD j Ev.printMsg) = true →
      strategyPipeshardAt scriptTrace j = true →
      firstIdx isSetDevicesVirtual scriptTrace < j) := by
  decide

/-- Witness for C5 at a concrete trace position: position 27 (the first
pipeshard compilation, line 253) uses the virtual mesh. -/
theorem device_mesh_usage_order_witness :
    devStateAt scriptTrace 27 = DevState.virtual :=
  device_mesh_usage_order.2.2.2.2.2.2.2.1 27 (by decide) (by decide) (by decide)

/- ------------------------------------------------------------------ -/
/- Execution semantics of the trace (claims C6-C8).  The script has no -/
/- try/except: each top-level statement is an external call that either -/
/- succeeds or raises.  `runLog` sequences the statements in order with -/
/- no handler: it returns the list of statements that were executed and -/
/- either success or the first error raised, unmodified.               -/
/- ------------------------------------------------------------------ -/

/-- Whether an external call outcome is a success. -/
def isOk : Except Nat Unit → Bool
  | Except.ok _ => true
  | Except.error _ => false

/-- Handler-free sequential execution of the script's statements under an
interpretation `interp` of each external call: returns the statements
executed (in order) and the final outcome. -/
def runLog (interp : Ev → Except Nat Unit) : List Ev → List Ev × Except Nat Unit
  | [] => ([], Except.ok ())
  | e :: rest =>
    match interp e with
    | Except.error err => ([e], Except.error err)
    | Except.ok _ =>
      let r := runLog interp rest
      (e :: r.1, r.2)

/-- Claim C6: the file intercepts no failure: if every statement before
some statement succeeds and that statement raises error `err`, then
execution of the script consists of exactly the preceding statements plus
the failing one — no later statement executes — and the result is the
raised error, unmodified. -/
theorem error_propagation_halts_script (interp : Ev → Except Nat Unit)
    (pre : List Ev) (e : Ev) (post : List Ev) (err : Nat)
    (hok : ∀ e2 ∈ pre, isOk (interp e2) = true)
    (hfail : interp e = Except.error err) :
    runLog interp (pre ++ e :: post) = (pre ++ [e], Except.error err) := by
  induction pre with
  | nil =>
    simp only [List.nil_append]
    simp [runLog, hfail]
  | cons a rest ih =>
    have ha : isOk (interp a) = true := hok a (List.mem_cons_self a rest)
    have hrest : ∀ e2 ∈ rest, isOk (interp e2) = true :=
      fun e2 he2 => hok e2 (List.mem_cons_of_mem a he2)
    have haok : interp a = Except.ok () := by
      cases h : interp a with
      | ok u => cases u; rfl
      | error er => rw [h] at ha; simp [isOk] at ha
    simp only [List.cons_append, runLog, haok]
    rw [show rest.append (e :: post) = rest ++ e :: post from rfl, ih hrest]

/-- Witness for C6: with an interpretation under which every statement
succeeds except the device shutdown on line 175 (which raises error 7),
running the script executes exactly the first 23 statements — the prefix
up to and including the shutdown — and yields error 7. -/
theorem error_propagation_halts_script_witness :
    runLog (fun e => match e with
        | Ev.shutdownDevices => Except.error 7
        | _ => Except.ok ())
      (scriptTrace.take 22 ++ Ev.shutdownDevices :: scriptTrace.drop 23)
      = (scriptTrace.take 22 ++ [Ev.shutdownDevices], Except.error 7) :=
  error_propagation_halts_script
    (fun e => match e with
      | Ev.shutdownDevices => Except.error 7
      | _ => Except.ok ())
    (scriptTrace.take 22) Ev.shutdownDevices (scriptTrace.drop 23) 7
    (by decide) rfl

/-- Claim C7: given that every external call terminates, the script
terminates: the top-level program is a finite sequence of 64 statements,
and every loop in the file is bounded by the fixed configuration: each of
the three model call loops applies exactly `num_hidden_layers = 4` bert
layers (the two manual models also emit a fixed number of markers), the
per-mesh loop of the profiler emits exactly one line per mesh of its
finite input, and the communication-statistics printer prints a single
line. -/
theorem script_terminates_bounded_loops :
    scriptTrace.length = 64 ∧
    bert_config.num_hidden_layers = 4 ∧
    n_layers = 4 ∧
    layerAppCount (BertLayerModel.call bert_config (TVal.tensor x)
      attention_mask) = 4 ∧
    layerAppCount ((UnequalManualLayerBertLayerModel.call bert_config
      (TVal.tensor x) attention_mask).1) = 4 ∧
    ((UnequalManualLayerBertLayerModel.call bert_config (TVal.tensor x)
      attention_mask).2).length = 4 ∧
    layerAppCount ((EqualManualLayerBertLayerModel.call bert_config
      (TVal.tensor x) attention_mask).1) = 4 ∧
    ((EqualManualLayerBertLayerModel.call bert_config (TVal.tensor x)
      attention_mask).2).length = 8 ∧
    (∀ pipeshard_stats : List MeshStats,
      (meshLines 0 pipeshard_stats).length = pipeshard_stats.length) ∧
    (∀ counts : Nat × Nat × Nat × Nat × Nat,
      (print_hlo_communication_stats counts).length = 1) := by
  refine ⟨by decide, by decide, by decide, by decide, by decide, by decide,
    by decide, by decide, fun ps => meshLines_length 0 ps, fun _ => rfl⟩

/-- No top-level statement of the script creates a thread, lock, or other
synchronization primitive: each event is a plain call or assignment (all
parallelism lives behind the external framework calls). -/
def isSyncPrimitive (_e : Ev) : Bool := false

/-- Claim C8: the file performs no scheduling, locking, or concurrent
coordination: no statement of the trace is a synchronization primitive,
and execution is a single sequential program — under every interpretation
of the external calls the executed statements are an in-order prefix of
the trace (two operations of the file never run concurrently). -/
theorem no_concurrency_sequential_execution :
    (scriptTrace.all (fun e => !isSyncPrimitive e)) = true ∧
    (∀ interp : Ev → Except Nat Unit,
      ∃ k, k ≤ scriptTrace.length ∧
        (runLog interp scriptTrace).1 = scriptTrace.take k) := by
  constructor
  · decide
  · intro interp
    have general : ∀ l : List Ev, ∃ k, k ≤ l.length ∧
        (runLog interp l).1 = l.take k := by
      intro l
      induction l with
      | nil => exact ⟨0, Nat.le_refl 0, rfl⟩
      | cons e rest ih =>
        cases h : interp e with
        | error err =>
          refine ⟨1, by simp, ?_⟩
          simp [runLog, h]
        | ok u =>
          obtain ⟨k, hk, hlog⟩ := ih
          cases u
          refine ⟨k + 1, by simpa using hk, ?_⟩
          simp [runLog, h, hlog]
    exact general scriptTrace
